import Mathlib

/-!
Verification development for the serial transport and board discovery layer of
the sr-robot3 repository.  The Python sources are shallowly embedded:

* `src/sbot/serial_wrapper.py` — the `retry` decorator and `SerialWrapper`
  (`query`, `write`, `_connect`, `_disconnect`) become pure state-passing
  functions over `SWState`, with the serial device abstracted as an oracle
  `Env` giving the outcome of each open attempt and each write+read cycle.
* `src/sbot/utils.py` — `singular` over a Python dict modelled as an
  association list, with Python's `next()` on a `dict_values` view embedded
  faithfully (it raises `TypeError`, since the view is not an iterator).
* `src/sr/robot3/arduino.py` — `Arduino.__init__`/`identify`,
  `_get_valid_board` and `_get_supported_boards`, with the board's serial
  response to the `v` command abstracted as an oracle.
-/

namespace SRobot

/-! ## Python string primitives -/

/-- Whitespace characters as recognised by Python's `str.strip()` (ASCII part):
space, tab, newline, carriage return, vertical tab, form feed. -/
def pyIsSpace (c : Char) : Bool :=
  c = ' ' || c = '\t' || c = '\n' || c = '\r' || c = Char.ofNat 11 || c = Char.ofNat 12

/-- Python `s.strip()` with no arguments: removes leading AND trailing
whitespace. -/
def pyStrip (s : String) : String :=
  String.mk (((s.data.dropWhile pyIsSpace).reverse.dropWhile pyIsSpace).reverse)

/-- The operation the spec describes for `query`'s return value: strip ONLY
trailing whitespace, leaving leading content unchanged.  This follows the
spec's words and is compared against the source's `pyStrip` (which is
two-sided). -/
def specStripTrailingOnly (s : String) : String :=
  String.mk ((s.data.reverse.dropWhile pyIsSpace).reverse)

/-- Helper for Python's substring test: does `needle` occur in `hay` starting
at some position? -/
def subListAt (needle : List Char) : List Char → Bool
  | [] => needle.isEmpty
  | c :: t => needle.isPrefixOf (c :: t) || subListAt needle t

/-- Python `needle in hay` for strings (substring containment). -/
def strContains (hay needle : String) : Bool :=
  subListAt needle.data hay.data

/-- Python `c in s` for a single character (used for `b'\n' in response`). -/
def strContainsChar (s : String) (c : Char) : Bool :=
  s.data.contains c

/-- Python `s.startswith(pre)`. -/
def strStartsWith (s pre : String) : Bool :=
  pre.data.isPrefixOf s.data

/-- Python `s.split(sep, maxsplit=1)[1]` existence: the text after the first
`:` of the list, or `none` when no `:` occurs (in which case unpacking
`_, error_msg = s.split(':', maxsplit=1)` raises `ValueError`). -/
def afterFirstColon : List Char → Option (List Char)
  | [] => none
  | c :: t => if c = ':' then some t else afterFirstColon t

/-- Auxiliary for `splitColon`: accumulates the current field reversed. -/
def splitColonAux : List Char → List Char → List String
  | [], cur => [String.mk cur.reverse]
  | c :: t, cur =>
    if c = ':' then String.mk cur.reverse :: splitColonAux t [] else splitColonAux t (c :: cur)

/-- Python `s.split(':')` (no maxsplit): every `:` is a separator, and the
empty string splits to `[""]`. -/
def splitColon (s : String) : List String :=
  splitColonAux s.data []

/-! ## SerialWrapper (src/sbot/serial_wrapper.py)

The pyserial device is abstracted as an oracle: `openOk n` is whether the
`n`-th `serial.Serial(...)` construction succeeds, and `txn n` is the outcome
of the `n`-th write+readline cycle (`ioError` for a `SerialException` raised
by `write`/`readline`, `line s` for `readline` returning the bytes `s`; a
read timeout surfaces as a returned line with no terminator, exactly as the
source then checks with `b'\n' not in response`). -/

/-- Outcome of one write+readline cycle against the device. -/
inductive IOOutcome where
  | ioError
  | line (s : String)

/-- The device oracle seen by one `SerialWrapper`. -/
structure Env where
  openOk : Nat → Bool
  txn : Nat → IOOutcome

/-- The mutable state of a `SerialWrapper`: `connected` is `self.connected`,
`serialSome` is whether `self.serial` is not `None`; `openCount`/`txnCount`
index the oracle; `written` logs the byte strings passed to
`self.serial.write`. -/
structure SWState where
  connected : Bool
  serialSome : Bool
  openCount : Nat
  txnCount : Nat
  written : List String
deriving DecidableEq, Repr

/-- The state set up by `SerialWrapper.__init__`: `self.serial = None`,
`self.connected = False`. -/
def initState : SWState :=
  { connected := false, serialSome := false, openCount := 0, txnCount := 0, written := [] }

/-- A state in which the wrapper is connected and holds a live handle, with
fresh oracle counters and an empty write log. -/
def connState : SWState :=
  { connected := true, serialSome := true, openCount := 0, txnCount := 0, written := [] }

/-- The `RuntimeError`s raised inside `query`, plus the `AttributeError` that
`self.serial.write` would raise if `self.serial` were `None`.  Only the
`RuntimeError`s are caught by the `retry` decorator
(`@retry(times=3, exceptions=RuntimeError)`). -/
inductive QueryError where
  | boardNotConnected
  | boardDisconnected
  | attributeError
deriving DecidableEq, Repr

/-- Whether the exception is an instance of `RuntimeError`, the class caught
by the `retry` decorator. -/
def isRuntimeError : QueryError → Bool
  | QueryError.boardNotConnected => true
  | QueryError.boardDisconnected => true
  | QueryError.attributeError => false

/-- `SerialWrapper._connect`: `serial.Serial(...)` succeeds (handle stored,
`connected = True`, return `True`) or raises `SerialException` (state
unchanged, return `False`).  Each call consumes one index of the open
oracle. -/
def pyConnect (env : Env) (s : SWState) : Bool × SWState :=
  if env.openOk s.openCount then
    (true, { s with serialSome := true, connected := true, openCount := s.openCount + 1 })
  else
    (false, { s with openCount := s.openCount + 1 })

/-- `SerialWrapper._disconnect`: if `self.serial is not None`, set
`connected = False`, close and null the handle; otherwise do nothing. -/
def pyDisconnect (s : SWState) : SWState :=
  if s.serialSome then { s with connected := false, serialSome := false } else s

/-- `SerialWrapper.start` (calls `_connect`, return value discarded). -/
def startS (env : Env) (s : SWState) : SWState :=
  (pyConnect env s).2

/-- `SerialWrapper.stop` (calls `_disconnect`). -/
def stopS (s : SWState) : SWState :=
  pyDisconnect s

/-- One undecorated execution of `SerialWrapper.query`'s body (one attempt of
the retry loop; the `with self._lock` is a no-op in this single-caller
sequential semantics, and the lock itself is modelled separately below):
reconnect if not connected (raising `RuntimeError('Board not connected')` if
that fails), write `data + '\n'`, read one line, require the terminator, on
`SerialException` disconnect and raise `RuntimeError('Board disconnected')`,
otherwise return the line decoded and `.strip()`ped. -/
def queryAttempt (env : Env) (data : String) (s : SWState) :
    Except QueryError String × SWState :=
  let cs := if s.connected then (true, s) else pyConnect env s
  if cs.1 = false then
    (Except.error QueryError.boardNotConnected, cs.2)
  else if cs.2.serialSome = false then
    (Except.error QueryError.attributeError, cs.2)
  else
    match env.txn cs.2.txnCount with
    | IOOutcome.ioError =>
        (Except.error QueryError.boardDisconnected,
          pyDisconnect { cs.2 with txnCount := cs.2.txnCount + 1 })
    | IOOutcome.line resp =>
        let s2 := { cs.2 with txnCount := cs.2.txnCount + 1, written := cs.2.written ++ [data ++ "\n"] }
        if strContainsChar resp '\n' then
          (Except.ok (pyStrip resp), s2)
        else
          (Except.error QueryError.boardDisconnected, pyDisconnect s2)

/-- The loop of `retry(times, exceptions)`'s `retryfn`, specialised to
`query`: while `attempt < times` call the function, returning on success and
swallowing a caught exception; when the loop is exhausted, call the function
one final time outside any `try` (its outcome, success or exception,
propagates).  An exception not of the caught class propagates immediately. -/
def queryLoop (env : Env) (data : String) : Nat → SWState → Except QueryError String × SWState
  | 0, s => queryAttempt env data s
  | Nat.succ n, s =>
    match queryAttempt env data s with
    | (Except.ok r, s') => (Except.ok r, s')
    | (Except.error e, s') =>
        if isRuntimeError e then queryLoop env data n s'
        else (Except.error e, s')

/-- `SerialWrapper.query` as decorated: `@retry(times=3, exceptions=RuntimeError)`. -/
def query (env : Env) (data : String) (s : SWState) : Except QueryError String × SWState :=
  queryLoop env data 3 s

/-- Errors observable from `SerialWrapper.write`: a propagated query error,
the `RuntimeError(error_msg)` raised on a NACK, or the `ValueError` from
unpacking `response.split(':', maxsplit=1)` when the response contains
`NACK` but no `:`. -/
inductive WriteError where
  | fromQuery (e : QueryError)
  | nack (msg : String)
  | valueError
deriving DecidableEq, Repr

/-- The data flow of `SerialWrapper.write`'s body AS IF its inner lock
acquisition completed: call `query`, then `if 'NACK' in response:
_, error_msg = response.split(':', maxsplit=1); raise RuntimeError(error_msg)`.
This is counterfactual: the real `write` first takes the non-reentrant
`self._lock` and then calls the decorated `query`, whose body re-acquires the
same lock, so the real call blocks forever before any of these outcomes —
`writeLocked` below is the faithful semantics and is what the claims about
`write`'s behaviour are settled against.  This body-only function is kept
because its state transitions include every transition the blocked real call
performs, which is what the C10 invariant statement needs. -/
def writeBody (env : Env) (data : String) (s : SWState) :
    Except WriteError Unit × SWState :=
  match query env data s with
  | (Except.error e, s') => (Except.error (WriteError.fromQuery e), s')
  | (Except.ok resp, s') =>
      if strContains resp "NACK" then
        match afterFirstColon resp.data with
        | some rest => (Except.error (WriteError.nack (String.mk rest)), s')
        | none => (Except.error WriteError.valueError, s')
      else (Except.ok (), s')

/-! ### The lock, modelled

`threading.Lock` is not reentrant: `acquire` on a lock that is already held
blocks the calling thread (even when that thread is the holder).  `write`
executes `with self._lock:` and then calls the decorated `query`, whose every
attempt itself executes `with self._lock:` on the same lock. -/

/-- `threading.Lock.acquire` by a single thread: `none` means the call blocks
forever (the lock is already held and no other thread exists to release
it). -/
def pyLockAcquire (held : Bool) : Option Unit :=
  if held then none else some ()

/-- One attempt of `query` including its `with self._lock:` entry, given
whether the calling thread already holds the lock. -/
def attemptLocked (held : Bool) (env : Env) (data : String) (s : SWState) :
    Option (Except QueryError String × SWState) :=
  match pyLockAcquire held with
  | none => none
  | some _ => some (queryAttempt env data s)

/-- The retry loop of `query` with lock semantics (`none` = blocked forever). -/
def queryLoopLocked (held : Bool) (env : Env) (data : String) :
    Nat → SWState → Option (Except QueryError String × SWState)
  | 0, s => attemptLocked held env data s
  | Nat.succ n, s =>
    match attemptLocked held env data s with
    | none => none
    | some (Except.ok r, s') => some (Except.ok r, s')
    | some (Except.error e, s') =>
        if isRuntimeError e then queryLoopLocked held env data n s'
        else some (Except.error e, s')

/-- `SerialWrapper.query` with lock semantics. -/
def queryLocked (held : Bool) (env : Env) (data : String) (s : SWState) :
    Option (Except QueryError String × SWState) :=
  queryLoopLocked held env data 3 s

/-- `SerialWrapper.write` with lock semantics: acquire the (free) lock, then
call the decorated `query`, which re-acquires the same non-reentrant lock. -/
def writeLocked (env : Env) (data : String) (s : SWState) :
    Option (Except WriteError Unit × SWState) :=
  match pyLockAcquire false with
  | none => none
  | some _ =>
    match queryLocked true env data s with
    | none => none
    | some (Except.error e, s') => some (Except.error (WriteError.fromQuery e), s')
    | some (Except.ok resp, s') =>
        if strContains resp "NACK" then
          match afterFirstColon resp.data with
          | some rest => some (Except.error (WriteError.nack (String.mk rest)), s')
          | none => some (Except.error WriteError.valueError, s')
        else some (Except.ok (), s')

/-! ## singular (src/sbot/utils.py)

A Python dict is modelled as an association list (`len`, `.values()` and
per-key assignment are the only operations used). -/

/-- The `dict_values` view object produced by `container.values()`: it is
iterable but is NOT an iterator (it implements only iteration, not the
single-step advance that Python's builtin `next` requires). -/
structure DictValues (α : Type) where
  vals : List α
deriving DecidableEq, Repr

/-- `container.values()`. -/
def dictValues {α : Type} (d : List (String × α)) : DictValues α :=
  ⟨d.map Prod.snd⟩

/-- The possible outcomes of a `singular` call: a returned value, a
`TypeError`, or a `RuntimeError` with its message. -/
inductive PyResult (α : Type) where
  | ok (a : α)
  | typeError
  | runtimeError (msg : String)
deriving DecidableEq, Repr

/-- Python `next(v)` applied to a `dict_values` view: the view has no
single-step advance method, so `next` raises
`TypeError: 'dict_values' object is not an iterator` regardless of the
contents (one would need `next(iter(v))`). -/
def pyNextDictValues {α : Type} (_v : DictValues α) : PyResult α :=
  PyResult.typeError

/-- `singular(container)` from src/sbot/utils.py: branch on `len(container)`;
for exactly one entry evaluate `next(container.values())`, for zero raise
`RuntimeError('No boards of this type found')`, otherwise raise
`RuntimeError` naming the count. -/
def singular {α : Type} (container : List (String × α)) : PyResult α :=
  let length := container.length
  if length = 1 then
    pyNextDictValues (dictValues container)
  else if length = 0 then
    PyResult.runtimeError "No boards of this type found"
  else
    PyResult.runtimeError ("expected only one to be connected, but found " ++ toString length)

/-! ## Arduino discovery (src/sr/robot3/arduino.py)

`Arduino.__init__`/`identify` are embedded with the robot3 `SerialWrapper`'s
`query('v')` abstracted as an oracle `ArduinoEnv.vQuery` (that wrapper lives
in `sr/robot3/serial_wrapper.py`: per the spec it returns the response line
or raises on failure, and `none` here stands for any raised exception —
connect failure, I/O failure or timeout).  A board object is represented by
its final `BoardIdentity`, which is all the discovery map stores that the
claims observe.  The `IN_SIMULATOR = False` deployment (hardware path) is
embedded, which is the path the claims concern. -/

/-- `BoardIdentity` (a NamedTuple; robot3's version defaults every field to
the empty string, as exercised by the repository's tests constructing
`BoardIdentity(asset_tag='TEST123')`). -/
structure BoardIdentity where
  manufacturer : String
  board_type : String
  asset_tag : String
  sw_version : String
deriving DecidableEq, Repr

/-- `BoardIdentity()` with every field defaulted. -/
def defaultIdentity : BoardIdentity :=
  ⟨"", "", "", ""⟩

/-- The fields of one entry of `serial.tools.list_ports.comports()` that
discovery consumes: device path, USB vendor id, product id, serial number. -/
structure PortInfo where
  device : String
  vid : Nat
  pid : Nat
  serial_number : String
deriving DecidableEq, Repr

/-- `SUPPORTED_VID_PIDS` from src/sr/robot3/arduino.py. -/
def SUPPORTED_VID_PIDS : List (Nat × Nat) :=
  [(0x2341, 0x0043), (0x2A03, 0x0043), (0x1A86, 0x7523), (0x10C4, 0xEA60), (0x16D0, 0x0613)]

/-- Modelled from the spec: `get_USB_identity` (sr/robot3/utils.py, not under
src/) builds the provisional identity from USB descriptor fields; its asset
tag is the USB serial number. -/
def get_USB_identity (port : PortInfo) : BoardIdentity :=
  { defaultIdentity with asset_tag := port.serial_number }

/-- The serial environment of one discovery pass: the response of the board
at each port path to the `v` identity query, or `none` when the query raises
(connect failure, I/O error, timeout). -/
structure ArduinoEnv where
  vQuery : String → Option String

/-- The exceptions `Arduino.__init__` can raise as classified by
`_get_valid_board`: `IncorrectBoardError(returned_type, expected_type)`, or
any other `Exception` (a raised serial query, or the `IndexError` from
`response_fields[1]` on a malformed response). -/
inductive ConstructError where
  | incorrectBoard (returned expected : String)
  | otherError
deriving DecidableEq, Repr

/-- `Arduino.__init__` composed with `Arduino.identify`: query `v`, split the
response on `:`, build the `BoardIdentity` (manufacturer from whether field 0
starts with `SR`, board type = field 0, asset tag carried over from the
initial identity via `self._serial_num`, software version = field 1 — an
`IndexError` if absent), then validate
`self._identity.board_type.startswith('SR')`, raising
`IncorrectBoardError(board_type, 'SR*')` on mismatch.  The manufacturer test
and the validation test in the source are the same condition on the same
field (`response_fields[0].startswith('SR')` with
`board_type = response_fields[0]`), so the embedding branches on it once. -/
def arduinoInit (env : ArduinoEnv) (serial_port : String) (initial : BoardIdentity) :
    Except ConstructError BoardIdentity :=
  match env.vQuery serial_port with
  | none => Except.error ConstructError.otherError
  | some response =>
    match splitColon response with
    | f0 :: f1 :: _ =>
        if strStartsWith f0 "SR" then
          Except.ok ⟨"Student Robotics", f0, initial.asset_tag, f1⟩
        else Except.error (ConstructError.incorrectBoard f0 "SR*")
    | _ => Except.error ConstructError.otherError

/-- The warnings `_get_valid_board` can log. -/
inductive LogEntry where
  | incorrectBoardWarning (returned expected : String)
  | manualUnidentifiedWarning (port : String)
  | simulatorUnidentifiedWarning (port : String)
  | arduinoLikeUnidentifiedWarning (port : String)
deriving DecidableEq, Repr

/-- `Arduino._get_valid_board`: construct the board; on
`IncorrectBoardError` warn with both type strings and return `None`; on any
other `Exception` return `None`, warning only in the manual, simulator, or
no-initial-identity cases. -/
def getValidBoard (env : ArduinoEnv) (serial_port : String) (initial : Option BoardIdentity) :
    Option BoardIdentity × List LogEntry :=
  match arduinoInit env serial_port (initial.getD defaultIdentity) with
  | Except.ok b => (some b, [])
  | Except.error (ConstructError.incorrectBoard r e) =>
      (none, [LogEntry.incorrectBoardWarning r e])
  | Except.error ConstructError.otherError =>
      match initial with
      | some i =>
          if i.board_type = "manual" then
            (none, [LogEntry.manualUnidentifiedWarning serial_port])
          else if i.manufacturer = "sbot_simulator" then
            (none, [LogEntry.simulatorUnidentifiedWarning serial_port])
          else (none, [])
      | none => (none, [LogEntry.arduinoLikeUnidentifiedWarning serial_port])

/-- Python dict assignment `d[k] = v` on an insertion-ordered dict: an
existing key keeps its position and gets the new value, a new key is
appended. -/
def pyDictInsert : List (String × BoardIdentity) → String → BoardIdentity →
    List (String × BoardIdentity)
  | [], k, v => [(k, v)]
  | (k', v') :: t, k, v =>
    if k' = k then (k, v) :: t else (k', v') :: pyDictInsert t k v

/-- One iteration of the USB discovery loop of `_get_supported_boards`:
skip ports whose (vid, pid) is not in the allow-list, skip ignored serials,
construct and validate, and on success run `boards[asset_tag] = board`. -/
def usbStep (env : ArduinoEnv) (ignored : List String)
    (acc : List (String × BoardIdentity) × List LogEntry) (port : PortInfo) :
    List (String × BoardIdentity) × List LogEntry :=
  if SUPPORTED_VID_PIDS.contains (port.vid, port.pid) then
    if ignored.contains (get_USB_identity port).asset_tag then acc
    else
      match getValidBoard env port.device (some (get_USB_identity port)) with
      | (none, logs) => (acc.1, acc.2 ++ logs)
      | (some b, logs) => (pyDictInsert acc.1 b.asset_tag b, acc.2 ++ logs)
  else acc

/-- One iteration of the manual-boards loop of `_get_supported_boards`: the
initial identity is `BoardIdentity(board_type='manual', asset_tag=port)`. -/
def manualStep (env : ArduinoEnv)
    (acc : List (String × BoardIdentity) × List LogEntry) (mport : String) :
    List (String × BoardIdentity) × List LogEntry :=
  match getValidBoard env mport
      (some { defaultIdentity with board_type := "manual", asset_tag := mport }) with
  | (none, logs) => (acc.1, acc.2 ++ logs)
  | (some b, logs) => (pyDictInsert acc.1 b.asset_tag b, acc.2 ++ logs)

/-- `Arduino._get_supported_boards` (hardware path): fold the USB loop over
the enumerated ports, then, when `manual_boards` is a list, fold the manual
loop over it.  Returns the boards mapping together with the warnings
logged. -/
def getSupportedBoards (env : ArduinoEnv) (ports : List PortInfo)
    (manual_boards : Option (List String)) (ignored_serials : Option (List String)) :
    List (String × BoardIdentity) × List LogEntry :=
  match manual_boards with
  | some ms => ms.foldl (manualStep env) (ports.foldl (usbStep env (ignored_serials.getD [])) ([], []))
  | none => ports.foldl (usbStep env (ignored_serials.getD [])) ([], [])

/-! ## Concrete device oracles used in counterexamples and witnesses -/

/-- Device: the first two write+read cycles fail with an I/O error, every
later one returns `PONG\n`; every open succeeds. -/
def envFailTwice : Env :=
  ⟨fun _ => true, fun n =>
    match n with
    | 0 => IOOutcome.ioError
    | 1 => IOOutcome.ioError
    | _ => IOOutcome.line "PONG\n"⟩

/-- Device: the first three write+read cycles fail with an I/O error, every
later one returns `OK\n`; every open succeeds. -/
def envFailThrice : Env :=
  ⟨fun _ => true, fun n =>
    match n with
    | 0 => IOOutcome.ioError
    | 1 => IOOutcome.ioError
    | 2 => IOOutcome.ioError
    | _ => IOOutcome.line "OK\n"⟩

/-- Device: every write+read cycle fails with an I/O error; every open
succeeds. -/
def envAllFail : Env :=
  ⟨fun _ => true, fun _ => IOOutcome.ioError⟩

/-- Device: every open attempt fails (board not present). -/
def envNeverOpen : Env :=
  ⟨fun _ => false, fun _ => IOOutcome.ioError⟩

/-- Device: the first three open attempts fail, later ones succeed; every
transaction returns `OK\n`. -/
def envOpenLate : Env :=
  ⟨fun n => decide (3 ≤ n), fun _ => IOOutcome.line "OK\n"⟩

/-- Device: every transaction returns a line with leading whitespace,
` hi\n`. -/
def envLeadingSpace : Env :=
  ⟨fun _ => true, fun _ => IOOutcome.line " hi\n"⟩

/-- Device: every transaction returns `NACK:bad value\n`. -/
def envNackMsg : Env :=
  ⟨fun _ => true, fun _ => IOOutcome.line "NACK:bad value\n"⟩

/-- Device: every transaction returns `ACK\n`. -/
def envAckLine : Env :=
  ⟨fun _ => true, fun _ => IOOutcome.line "ACK\n"⟩

/-! ## Helper lemmas about `query` -/

/-- From a connected state with fresh counters, one attempt whose transaction
returns a terminated line succeeds, writes `data + '\n'` once and strips the
response. -/
theorem queryAttempt_line (env : Env) (data r : String)
    (h0 : env.txn 0 = IOOutcome.line r) (hr : strContainsChar r '\n' = true) :
    queryAttempt env data connState =
      (Except.ok (pyStrip r),
        { connected := true, serialSome := true, openCount := 0, txnCount := 1,
          written := [data ++ "\n"] }) := by
  simp [queryAttempt, connState, h0, hr]

/-- From a connected state with fresh counters, when the first transaction
returns a terminated line, the decorated `query` returns it stripped after
exactly one write and one read. -/
theorem query_line (env : Env) (data r : String)
    (h0 : env.txn 0 = IOOutcome.line r) (hr : strContainsChar r '\n' = true) :
    query env data connState =
      (Except.ok (pyStrip r),
        { connected := true, serialSome := true, openCount := 0, txnCount := 1,
          written := [data ++ "\n"] }) := by
  simp [query, queryLoop, queryAttempt_line env data r h0 hr]

/-! ## Claim C1 — retry bound of `query` -/

/-- C1 counterexample.  The claim states a bound of 3 total attempts and
that `query` raises a `Board disconnected` error when all 3 attempts fail.
Against the device `envFailThrice`, whose first three write+read cycles all
fail with a transient I/O error, `query` does NOT raise: the `retry`
decorator's loop swallows the three failures and the final call outside the
loop — a fourth attempt — succeeds, so `query` returns `OK`. -/
theorem c1_counterexample :
    envFailThrice.txn 0 = IOOutcome.ioError
    ∧ envFailThrice.txn 1 = IOOutcome.ioError
    ∧ envFailThrice.txn 2 = IOOutcome.ioError
    ∧ (query envFailThrice "Q" connState).1 = Except.ok "OK"
    ∧ (query envFailThrice "Q" connState).2.txnCount = 4 :=
  ⟨rfl, rfl, rfl, rfl, rfl⟩

/-- C1 amended: on a transient I/O failure `query` forces a disconnect,
reconnects and retries, up to a bound of 4 total attempts (the decorator's
loop runs `times = 3` guarded attempts and then performs one final unguarded
call): if the first two attempts fail and the third succeeds, `query`
returns that third response; if all 4 attempts fail, `query` raises the
`Board disconnected` error. -/
theorem c1_retry_amended (env1 env2 : Env) (data r : String)
    (hopen1 : ∀ n, env1.openOk n = true)
    (h0 : env1.txn 0 = IOOutcome.ioError)
    (h1 : env1.txn 1 = IOOutcome.ioError)
    (h2 : env1.txn 2 = IOOutcome.line r)
    (hr : strContainsChar r '\n' = true)
    (hopen2 : ∀ n, env2.openOk n = true)
    (hfail : ∀ n, env2.txn n = IOOutcome.ioError) :
    (query env1 data connState).1 = Except.ok (pyStrip r)
    ∧ query env2 data connState =
        (Except.error QueryError.boardDisconnected,
          { connected := false, serialSome := false, openCount := 3, txnCount := 4,
            written := [] }) := by
  constructor
  · simp [query, queryLoop, queryAttempt, pyConnect, pyDisconnect, connState,
      h0, h1, h2, hr, hopen1, isRuntimeError]
  · simp [query, queryLoop, queryAttempt, pyConnect, pyDisconnect, connState,
      hfail, hopen2, isRuntimeError]

/-- C1 amended, witness at the concrete devices `envFailTwice` and
`envAllFail`. -/
theorem c1_retry_amended_witness :
    (query envFailTwice "Q" connState).1 = Except.ok (pyStrip "PONG\n")
    ∧ query envAllFail "Q" connState =
        (Except.error QueryError.boardDisconnected,
          { connected := false, serialSome := false, openCount := 3, txnCount := 4,
            written := [] }) :=
  c1_retry_amended envFailTwice envAllFail "Q" "PONG\n"
    (fun _ => rfl) rfl rfl rfl (by decide) (fun _ => rfl) (fun _ => rfl)

/-! ## Claim C4 — successful `query` transaction shape -/

/-- C4 counterexample.  The claim states that `query` returns the line with
ONLY its trailing whitespace stripped and the line's leading content
unchanged.  Against a device returning ` hi\n` (leading space), the source's
`response.decode().strip()` strips both ends and `query` returns `hi`,
whereas only-trailing stripping gives ` hi`. -/
theorem c4_counterexample :
    (query envLeadingSpace "Q" connState).1 = Except.ok "hi"
    ∧ specStripTrailingOnly " hi\n" = " hi"
    ∧ ("hi" : String) ≠ " hi" :=
  ⟨rfl, rfl, by decide⟩

/-- C4 amended: for every command `c` not containing the terminator, a
`query(c)` that succeeds on its first attempt writes exactly the bytes of
`c` followed by the terminator `'\n'` (one write), reads exactly one line,
and returns that line with BOTH leading and trailing whitespace stripped
(Python `str.strip()`). -/
theorem c4_query_success_amended (env : Env) (c r : String)
    (_hc : strContainsChar c '\n' = false)
    (h0 : env.txn 0 = IOOutcome.line r)
    (hr : strContainsChar r '\n' = true) :
    query env c connState =
      (Except.ok (pyStrip r),
        { connected := true, serialSome := true, openCount := 0, txnCount := 1,
          written := [c ++ "\n"] }) :=
  query_line env c r h0 hr

/-- C4 amended, witness at the device `envAckLine`. -/
theorem c4_query_success_amended_witness :
    query envAckLine "PV" connState =
      (Except.ok (pyStrip "ACK\n"),
        { connected := true, serialSome := true, openCount := 0, txnCount := 1,
          written := ["PV" ++ "\n"] }) :=
  c4_query_success_amended envAckLine "PV" "ACK\n" (by decide) rfl (by decide)

/-! ## Claim C5 — connect failure -/

/-- C5 counterexample.  The claim states that a failed reconnection is
immediately fatal, not retried by the retry loop, with `query` raising
`Board not connected` after a single failed reconnection attempt.  Against
the device `envOpenLate`, whose first three open attempts fail and whose
fourth succeeds, `query` from the disconnected initial state does not raise
at all: the `RuntimeError('Board not connected')` is an instance of the
`RuntimeError` class the decorator catches, so the connect failure is
retried, and the fourth attempt connects and succeeds. -/
theorem c5_counterexample :
    envOpenLate.openOk 0 = false
    ∧ envOpenLate.openOk 1 = false
    ∧ envOpenLate.openOk 2 = false
    ∧ (query envOpenLate "Q" initState).1 = Except.ok "OK"
    ∧ (query envOpenLate "Q" initState).2.openCount = 4 :=
  ⟨rfl, rfl, rfl, rfl, rfl⟩

/-- C5 amended: a failure to establish the connection raises the distinct
`Board not connected` error, but it IS retried by the retry loop (the
decorator catches `RuntimeError`, the class of both errors): when the
`Transport` is disconnected and every reconnection fails, `query` raises
`Board not connected` only after 4 attempts, each making one failed
reconnection; the error is distinct from the `Board disconnected` error used
for mid-transaction failures. -/
theorem c5_connect_failure_amended (env : Env) (data : String) (s : SWState)
    (hs : s.connected = false)
    (hopen : ∀ n, env.openOk n = false) :
    query env data s = (Except.error QueryError.boardNotConnected,
        { s with openCount := s.openCount + 4 })
    ∧ QueryError.boardNotConnected ≠ QueryError.boardDisconnected := by
  refine ⟨?_, by decide⟩
  simp [query, queryLoop, queryAttempt, pyConnect, hs, hopen, isRuntimeError]

/-- C5 amended, witness at the device `envNeverOpen` and the initial
state. -/
theorem c5_connect_failure_amended_witness :
    query envNeverOpen "Q" initState = (Except.error QueryError.boardNotConnected,
        { initState with openCount := initState.openCount + 4 })
    ∧ QueryError.boardNotConnected ≠ QueryError.boardDisconnected :=
  c5_connect_failure_amended envNeverOpen "Q" initState rfl (fun _ => rfl)

/-! ## Claim C3 — `write` and the NACK convention -/

/-- C3: the claimed behaviour of `write` — raise a protocol-level error
carrying the text after the first `:` when the response begins with
`NACK:`, return without raising otherwise — is unreachable in the code.
Under the lock-faithful semantics, with a connected Transport and the board
answering `NACK:bad value` (a response that does begin with `NACK:`), and
likewise with the board answering `ACK`, the `write` call blocks forever on
the re-acquired non-reentrant lock: it neither raises the protocol error
nor returns. -/
theorem c3_write_nack_unreachable :
    writeLocked envNackMsg "Q" connState = none
    ∧ writeLocked envAckLine "Q" connState = none :=
  ⟨rfl, rfl⟩

/-! ## Claim C2 — concurrency contract of `query`/`write` -/

/-- C2: the concurrency contract of `write` is unsatisfiable as coded.
`threading.Lock` is not reentrant; `write` executes `with self._lock:` and
then calls the decorated `query`, whose every attempt re-acquires the same
lock.  Under the lock-aware semantics every `write` call — from any state,
against any device, even with no other thread in existence — blocks forever
(`none`), while a direct `query` call on the same device completes, showing
the deadlock is caused precisely by `write`'s nested acquisition. -/
theorem c2_write_deadlock :
    (∀ (env : Env) (data : String) (s : SWState), writeLocked env data s = none)
    ∧ (queryLocked false envAckLine "Q" connState).isSome = true :=
  ⟨fun _ _ _ => rfl, rfl⟩

/-! ## Claim C6 — `singular` -/

/-- C6: evaluation of `singular` from src/sbot/utils.py.  For the empty dict
and for two entries it raises the claimed `RuntimeError`s, but for the
singleton dict — the case the claim says returns the sole value — the
source evaluates `next(container.values())`, and a `dict_values` view is
not an iterator, so Python raises `TypeError` instead of returning the
value (the sole value is present in the view, as the second conjunct
shows). -/
theorem c6_singular_eval :
    singular [("a", (42 : Nat))] = PyResult.typeError
    ∧ (dictValues [("a", (42 : Nat))]).vals = [42]
    ∧ singular ([] : List (String × Nat))
        = PyResult.runtimeError "No boards of this type found"
    ∧ singular [("a", (1 : Nat)), ("b", 2)]
        = PyResult.runtimeError "expected only one to be connected, but found 2" :=
  ⟨rfl, rfl, rfl, rfl⟩

/-! ## Claim C10 — the connected-implies-handle invariant -/

/-- The implicit invariant of `SerialWrapper`: whenever `self.connected` is
`True`, `self.serial` is not `None`. -/
def SWInv (s : SWState) : Prop :=
  s.connected = true → s.serialSome = true

/-- `_connect` preserves the invariant. -/
theorem pyConnect_inv (env : Env) (s : SWState) (h : SWInv s) :
    SWInv (pyConnect env s).2 := by
  unfold SWInv pyConnect
  split
  · exact fun _ => rfl
  · exact h

/-- `_disconnect` preserves the invariant. -/
theorem pyDisconnect_inv (s : SWState) (h : SWInv s) :
    SWInv (pyDisconnect s) := by
  unfold SWInv pyDisconnect
  split
  · exact fun hc => hc
  · exact h

/-- One attempt of `query` preserves the invariant and, from an invariant
state, never evaluates `self.serial.write`/`readline` on a `None` handle. -/
theorem queryAttempt_inv (env : Env) (data : String) (s : SWState) (h : SWInv s) :
    SWInv (queryAttempt env data s).2
    ∧ (queryAttempt env data s).1 ≠ Except.error QueryError.attributeError := by
  obtain ⟨c, ss, oc, tc, w⟩ := s
  cases c with
  | true =>
    have hss : ss = true := h rfl
    subst hss
    unfold queryAttempt
    cases henv : env.txn tc with
    | ioError => simp [henv, SWInv, pyDisconnect]
    | line resp =>
      by_cases hterm : strContainsChar resp '\n' <;>
        simp [henv, hterm, SWInv, pyDisconnect]
  | false =>
    unfold queryAttempt pyConnect
    cases hob : env.openOk oc with
    | false => cases ss <;> simp [hob, SWInv]
    | true =>
      cases hss2 : ss <;>
      · cases henv : env.txn tc with
        | ioError => simp [hob, henv, SWInv, pyDisconnect]
        | line resp =>
          by_cases hterm : strContainsChar resp '\n' <;>
            simp [hob, henv, hterm, SWInv, pyDisconnect]

/-- The retry loop of `query` preserves the invariant and never surfaces the
`None`-handle access. -/
theorem queryLoop_inv (env : Env) (data : String) (n : Nat) (s : SWState) (h : SWInv s) :
    SWInv (queryLoop env data n s).2
    ∧ (queryLoop env data n s).1 ≠ Except.error QueryError.attributeError := by
  induction n generalizing s with
  | zero => exact queryAttempt_inv env data s h
  | succ n ih =>
    obtain ⟨h1, h2⟩ := queryAttempt_inv env data s h
    unfold queryLoop
    cases hq : queryAttempt env data s with
    | mk res s' =>
      rw [hq] at h1 h2
      cases res with
      | ok v => exact ⟨h1, by simp⟩
      | error e =>
        cases e with
        | boardNotConnected => exact ih s' h1
        | boardDisconnected => exact ih s' h1
        | attributeError => exact absurd rfl h2

/-- The final state of `write` is the final state of its inner `query`. -/
theorem writeBody_snd (env : Env) (data : String) (s : SWState) :
    (writeBody env data s).2 = (query env data s).2 := by
  unfold writeBody
  cases hq : query env data s with
  | mk res s' =>
    cases res with
    | ok v =>
      by_cases hn : strContains v "NACK" <;>
        cases hm : afterFirstColon v.data <;> simp [hn, hm]
    | error e => simp

/-- C10: whenever the `connected` flag is `True` the serial handle is not
`None`; this holds in the state `__init__` sets up and is preserved by
`start`, `stop`, `query` and `write`; consequently the
`self.serial.write`/`readline` inside `query` is never performed on a `None`
handle (`query` never raises the `AttributeError` such an access would
produce). -/
theorem c10_connected_implies_handle (env : Env) (data : String) (s : SWState)
    (h : SWInv s) :
    SWInv initState
    ∧ SWInv (startS env s)
    ∧ SWInv (stopS s)
    ∧ SWInv (query env data s).2
    ∧ (query env data s).1 ≠ Except.error QueryError.attributeError
    ∧ SWInv (writeBody env data s).2 := by
  obtain ⟨hq1, hq2⟩ := queryLoop_inv env data 3 s h
  exact ⟨(fun hc => nomatch hc), pyConnect_inv env s h, pyDisconnect_inv s h, hq1, hq2,
    by rw [writeBody_snd]; exact hq1⟩

/-- C10 witness at the initial state and the `envAckLine` device. -/
theorem c10_connected_implies_handle_witness :
    SWInv initState
    ∧ SWInv (startS envAckLine initState)
    ∧ SWInv (stopS initState)
    ∧ SWInv (query envAckLine "Q" initState).2
    ∧ (query envAckLine "Q" initState).1 ≠ Except.error QueryError.attributeError
    ∧ SWInv (writeBody envAckLine "Q" initState).2 :=
  c10_connected_implies_handle envAckLine "Q" initState (by intro hc; cases hc)

/-! ## Discovery helper lemmas -/

/-- The boards component of one USB discovery iteration depends only on the
boards component of the accumulator. -/
theorem usbStep_fst_eq (env : ArduinoEnv) (ig : List String)
    (acc acc' : List (String × BoardIdentity) × List LogEntry) (p : PortInfo)
    (h : acc.1 = acc'.1) :
    (usbStep env ig acc p).1 = (usbStep env ig acc' p).1 := by
  unfold usbStep
  by_cases h1 : (p.vid, p.pid) ∈ SUPPORTED_VID_PIDS
  · by_cases h2 : (get_USB_identity p).asset_tag ∈ ig
    · simp [h1, h2, h]
    · cases hg : getValidBoard env p.device (some (get_USB_identity p)) with
      | mk ob logs => cases ob <;> simp [h1, h2, hg, h]
  · simp [h1, h]

/-- The boards component of the USB discovery fold depends only on the
boards component of the accumulator. -/
theorem usbFold_fst_eq (env : ArduinoEnv) (ig : List String) (l : List PortInfo)
    (acc acc' : List (String × BoardIdentity) × List LogEntry) (h : acc.1 = acc'.1) :
    (List.foldl (usbStep env ig) acc l).1 = (List.foldl (usbStep env ig) acc' l).1 := by
  induction l generalizing acc acc' with
  | nil => simpa using h
  | cons p t ih =>
    simp only [List.foldl_cons]
    exact ih _ _ (usbStep_fst_eq env ig acc acc' p h)

/-- The boards component of one manual-boards iteration depends only on the
boards component of the accumulator. -/
theorem manualStep_fst_eq (env : ArduinoEnv)
    (acc acc' : List (String × BoardIdentity) × List LogEntry) (m : String)
    (h : acc.1 = acc'.1) :
    (manualStep env acc m).1 = (manualStep env acc' m).1 := by
  unfold manualStep
  cases hg : getValidBoard env m
      (some { defaultIdentity with board_type := "manual", asset_tag := m }) with
  | mk ob logs => cases ob <;> simp [hg, h]

/-- The boards component of the manual-boards fold depends only on the
boards component of the accumulator. -/
theorem manualFold_fst_eq (env : ArduinoEnv) (ms : List String)
    (acc acc' : List (String × BoardIdentity) × List LogEntry) (h : acc.1 = acc'.1) :
    (List.foldl (manualStep env) acc ms).1 = (List.foldl (manualStep env) acc' ms).1 := by
  induction ms generalizing acc acc' with
  | nil => simpa using h
  | cons m t ih =>
    simp only [List.foldl_cons]
    exact ih _ _ (manualStep_fst_eq env acc acc' m h)

/-- One USB discovery iteration only appends to the warning log. -/
theorem usbStep_snd_append (env : ArduinoEnv) (ig : List String)
    (acc : List (String × BoardIdentity) × List LogEntry) (p : PortInfo) :
    ∃ t, (usbStep env ig acc p).2 = acc.2 ++ t := by
  unfold usbStep
  by_cases h1 : (p.vid, p.pid) ∈ SUPPORTED_VID_PIDS
  · by_cases h2 : (get_USB_identity p).asset_tag ∈ ig
    · exact ⟨[], by simp [h1, h2]⟩
    · cases hg : getValidBoard env p.device (some (get_USB_identity p)) with
      | mk ob logs =>
        cases ob <;> exact ⟨logs, by simp [h1, h2, hg]⟩
  · exact ⟨[], by simp [h1]⟩

/-- The USB discovery fold only appends to the warning log. -/
theorem usbFold_snd_append (env : ArduinoEnv) (ig : List String) (l : List PortInfo)
    (acc : List (String × BoardIdentity) × List LogEntry) :
    ∃ t, (List.foldl (usbStep env ig) acc l).2 = acc.2 ++ t := by
  induction l generalizing acc with
  | nil => exact ⟨[], by simp⟩
  | cons p tl ih =>
    obtain ⟨t1, h1⟩ := usbStep_snd_append env ig acc p
    obtain ⟨t2, h2⟩ := ih (usbStep env ig acc p)
    exact ⟨t1 ++ t2, by simp [List.foldl_cons, h2, h1]⟩

/-- One manual-boards iteration only appends to the warning log. -/
theorem manualStep_snd_append (env : ArduinoEnv)
    (acc : List (String × BoardIdentity) × List LogEntry) (m : String) :
    ∃ t, (manualStep env acc m).2 = acc.2 ++ t := by
  unfold manualStep
  cases hg : getValidBoard env m
      (some { defaultIdentity with board_type := "manual", asset_tag := m }) with
  | mk ob logs => cases ob <;> exact ⟨logs, by simp [hg]⟩

/-- The manual-boards fold only appends to the warning log. -/
theorem manualFold_snd_append (env : ArduinoEnv) (ms : List String)
    (acc : List (String × BoardIdentity) × List LogEntry) :
    ∃ t, (List.foldl (manualStep env) acc ms).2 = acc.2 ++ t := by
  induction ms generalizing acc with
  | nil => exact ⟨[], by simp⟩
  | cons m tl ih =>
    obtain ⟨t1, h1⟩ := manualStep_snd_append env acc m
    obtain ⟨t2, h2⟩ := ih (manualStep env acc m)
    exact ⟨t1 ++ t2, by simp [List.foldl_cons, h2, h1]⟩

/-- A matching, non-ignored candidate whose validation returns `None`
contributes nothing to the boards map and only its warnings to the log. -/
theorem usbStep_excluded (env : ArduinoEnv) (ig : List String)
    (acc : List (String × BoardIdentity) × List LogEntry) (p : PortInfo)
    (h1 : (p.vid, p.pid) ∈ SUPPORTED_VID_PIDS)
    (h2 : (get_USB_identity p).asset_tag ∉ ig)
    (h3 : (getValidBoard env p.device (some (get_USB_identity p))).1 = none) :
    usbStep env ig acc p =
      (acc.1, acc.2 ++ (getValidBoard env p.device (some (get_USB_identity p))).2) := by
  unfold usbStep
  cases hg : getValidBoard env p.device (some (get_USB_identity p)) with
  | mk ob logs =>
    rw [hg] at h3
    cases ob with
    | none => simp [h1, h2, hg]
    | some b => exact absurd h3 (by simp)

/-- A board constructed by `Arduino.__init__` keeps the provisional asset
tag of the initial identity. -/
theorem arduinoInit_asset_tag (env : ArduinoEnv) (d : String) (i : BoardIdentity)
    (b : BoardIdentity) (h : arduinoInit env d i = Except.ok b) :
    b.asset_tag = i.asset_tag := by
  unfold arduinoInit at h
  split at h
  · exact absurd h (by simp)
  · split at h
    · split at h
      · rw [← Except.ok.inj h]
      · exact absurd h (by simp)
    · exact absurd h (by simp)

/-- `_get_valid_board` on a successful construction returns the board and
logs nothing. -/
theorem getValidBoard_ok (env : ArduinoEnv) (d : String) (i : BoardIdentity)
    (b : BoardIdentity) (h : arduinoInit env d i = Except.ok b) :
    getValidBoard env d (some i) = (some b, []) := by
  unfold getValidBoard
  simp [h]

/-- `_get_valid_board` on an `IncorrectBoardError` logs the warning carrying
both type strings and returns `None`. -/
theorem getValidBoard_incorrect (env : ArduinoEnv) (d : String) (i : BoardIdentity)
    (ret exp : String)
    (h : arduinoInit env d i = Except.error (ConstructError.incorrectBoard ret exp)) :
    getValidBoard env d (some i) = (none, [LogEntry.incorrectBoardWarning ret exp]) := by
  unfold getValidBoard
  simp [h]

/-! ## Concrete discovery environments used in counterexamples and witnesses -/

/-- A port whose USB descriptor matches an Arduino Uno rev 3. -/
def portBadType : PortInfo :=
  ⟨"/dev/ttyACM0", 0x2341, 0x0043, "X1"⟩

/-- The board at `/dev/ttyACM0` answers the identity query with
`Arduino:1.0` — a board type that does not start with `SR`. -/
def envBadType : ArduinoEnv :=
  ⟨fun d => if d = "/dev/ttyACM0" then some "Arduino:1.0" else none⟩

/-- First of two matching ports whose USB serial number is `DUP`. -/
def portDup1 : PortInfo :=
  ⟨"d1", 0x2341, 0x0043, "DUP"⟩

/-- Second of two matching ports whose USB serial number is `DUP`. -/
def portDup2 : PortInfo :=
  ⟨"d2", 0x2341, 0x0043, "DUP"⟩

/-- The boards at `d1` and `d2` both identify as SR firmware, with software
versions 1.0 and 2.0 respectively. -/
def envDup : ArduinoEnv :=
  ⟨fun d => if d = "d1" then some "SRduino:1.0"
            else if d = "d2" then some "SRduino:2.0" else none⟩

/-- The board at the manually specified path `test://port` answers
`SRduino:2.0`. -/
def envManual : ArduinoEnv :=
  ⟨fun d => if d = "test://port" then some "SRduino:2.0" else none⟩

/-! ## Claim C7 — discovery resilience -/

/-- C7: for every port list, a matching-VID/PID, non-ignored candidate whose
construction fails — whether with `IncorrectBoardError` or any other
construction error (I/O failure, timeout, malformed response, all of which
make `_get_valid_board` return `None`) — is excluded from the result map
without disturbing the rest of the discovery pass (the boards map equals the
one computed with that candidate absent; `_get_supported_boards` is a total
function, so no exception propagates), and in the `IncorrectBoardError` case
the warning carrying both the observed and the expected type strings is
logged. -/
theorem c7_discovery_resilience (env : ArduinoEnv) (l1 l2 : List PortInfo) (p : PortInfo)
    (manual : Option (List String)) (ignored : List String)
    (hmatch : (p.vid, p.pid) ∈ SUPPORTED_VID_PIDS)
    (hig : (get_USB_identity p).asset_tag ∉ ignored)
    (hexcl : (getValidBoard env p.device (some (get_USB_identity p))).1 = none) :
    (getSupportedBoards env (l1 ++ p :: l2) manual (some ignored)).1
      = (getSupportedBoards env (l1 ++ l2) manual (some ignored)).1
    ∧ (∀ ret exp, arduinoInit env p.device (get_USB_identity p)
          = Except.error (ConstructError.incorrectBoard ret exp) →
        LogEntry.incorrectBoardWarning ret exp
          ∈ (getSupportedBoards env (l1 ++ p :: l2) manual (some ignored)).2) := by
  have hstep := usbStep_excluded env ignored
    (List.foldl (usbStep env ignored) ([], []) l1) p hmatch hig hexcl
  have husb : (List.foldl (usbStep env ignored) ([], []) (l1 ++ p :: l2)).1
      = (List.foldl (usbStep env ignored) ([], []) (l1 ++ l2)).1 := by
    rw [List.foldl_append, List.foldl_append, List.foldl_cons]
    exact usbFold_fst_eq env ignored l2 _ _ (by rw [hstep])
  constructor
  · unfold getSupportedBoards
    cases manual with
    | none => exact husb
    | some ms => exact manualFold_fst_eq env ms _ _ husb
  · intro ret exp harden
    have hval := getValidBoard_incorrect env p.device (get_USB_identity p) ret exp harden
    have hstep2 : usbStep env ignored (List.foldl (usbStep env ignored) ([], []) l1) p
        = ((List.foldl (usbStep env ignored) ([], []) l1).1,
           (List.foldl (usbStep env ignored) ([], []) l1).2
             ++ [LogEntry.incorrectBoardWarning ret exp]) := by
      rw [hstep, hval]
    obtain ⟨t2, ht2⟩ := usbFold_snd_append env ignored l2
      (usbStep env ignored (List.foldl (usbStep env ignored) ([], []) l1) p)
    have husblog : (List.foldl (usbStep env ignored) ([], []) (l1 ++ p :: l2)).2
        = ((List.foldl (usbStep env ignored) ([], []) l1).2
            ++ [LogEntry.incorrectBoardWarning ret exp]) ++ t2 := by
      rw [List.foldl_append, List.foldl_cons, ht2, hstep2]
    unfold getSupportedBoards
    cases manual with
    | none =>
      simp only [Option.getD_some]
      rw [List.foldl_append, List.foldl_cons, ht2, hstep2]
      simp
    | some ms =>
      simp only [Option.getD_some]
      obtain ⟨t3, ht3⟩ := manualFold_snd_append env ms
        (List.foldl (usbStep env ignored) ([], []) (l1 ++ p :: l2))
      rw [ht3, husblog]
      simp

/-- C7 witness: a single matching port whose board reports type `Arduino`
(expected `SR*`). -/
theorem c7_discovery_resilience_witness :
    (getSupportedBoards envBadType [portBadType] none (some [])).1
      = (getSupportedBoards envBadType [] none (some [])).1
    ∧ LogEntry.incorrectBoardWarning "Arduino" "SR*"
        ∈ (getSupportedBoards envBadType [portBadType] none (some [])).2 := by
  have h := c7_discovery_resilience envBadType [] [] portBadType none []
    (by decide) (by simp) rfl
  exact ⟨h.1, h.2 "Arduino" "SR*" rfl⟩

/-! ## Claim C8 — duplicate asset tags -/

/-- C8 counterexample.  The claim states that when two successfully
validated candidates report the same asset tag, the second insertion must
not silently overwrite the first.  With two matching ports `d1` and `d2`
both carrying USB serial `DUP` and both validating, the result map of the
source's `boards[board._identity.asset_tag] = board` holds exactly one
entry: the `d2` board (sw_version 2.0); the validated `d1` board
(sw_version 1.0) has been silently overwritten. -/
theorem c8_counterexample :
    (getValidBoard envDup "d1" (some (get_USB_identity portDup1))).1
      = some ⟨"Student Robotics", "SRduino", "DUP", "1.0"⟩
    ∧ (getValidBoard envDup "d2" (some (get_USB_identity portDup2))).1
      = some ⟨"Student Robotics", "SRduino", "DUP", "2.0"⟩
    ∧ (getSupportedBoards envDup [portDup1, portDup2] none none).1
      = [("DUP", ⟨"Student Robotics", "SRduino", "DUP", "2.0"⟩)]
    ∧ (⟨"Student Robotics", "SRduino", "DUP", "1.0"⟩ : BoardIdentity)
      ≠ ⟨"Student Robotics", "SRduino", "DUP", "2.0"⟩ :=
  ⟨rfl, rfl, rfl, by decide⟩

/-- C8 amended: the discovery result map's keys are unique, but NOT by
rejection of duplicates: when two successfully validated candidates report
the same asset tag during one discovery pass, the second insertion silently
overwrites the first (Python dict last-write-wins) — the result map holds a
single entry for that tag carrying the later board. -/
theorem c8_last_write_wins_amended (env : ArduinoEnv) (p1 p2 : PortInfo) (tag : String)
    (b1 b2 : BoardIdentity)
    (hm1 : (p1.vid, p1.pid) ∈ SUPPORTED_VID_PIDS)
    (hm2 : (p2.vid, p2.pid) ∈ SUPPORTED_VID_PIDS)
    (h1 : arduinoInit env p1.device (get_USB_identity p1) = Except.ok b1)
    (h2 : arduinoInit env p2.device (get_USB_identity p2) = Except.ok b2)
    (ht1 : (get_USB_identity p1).asset_tag = tag)
    (ht2 : (get_USB_identity p2).asset_tag = tag) :
    (getSupportedBoards env [p1, p2] none none).1 = [(tag, b2)] := by
  have e1 : b1.asset_tag = tag := (arduinoInit_asset_tag env p1.device _ b1 h1).trans ht1
  have e2 : b2.asset_tag = tag := (arduinoInit_asset_tag env p2.device _ b2 h2).trans ht2
  unfold getSupportedBoards
  simp only [List.foldl_cons, List.foldl_nil]
  unfold usbStep
  simp [hm1, hm2, getValidBoard_ok env p1.device _ b1 h1,
    getValidBoard_ok env p2.device _ b2 h2, e1, e2, pyDictInsert]

/-- C8 amended, witness at the duplicated-serial environment. -/
theorem c8_last_write_wins_amended_witness :
    (getSupportedBoards envDup [portDup1, portDup2] none none).1
      = [("DUP", (⟨"Student Robotics", "SRduino", "DUP", "2.0"⟩ : BoardIdentity))] :=
  c8_last_write_wins_amended envDup portDup1 portDup2 "DUP"
    ⟨"Student Robotics", "SRduino", "DUP", "1.0"⟩
    ⟨"Student Robotics", "SRduino", "DUP", "2.0"⟩
    (by decide) (by decide) rfl rfl rfl rfl

/-! ## Claim C9 — manual boards keyed by port path -/

/-- C9: a manually specified port path `m` that successfully identifies is
keyed in the discovery result map by that literal port-path string:
`identify` preserves the provisional asset tag (the port path, installed by
`BoardIdentity(board_type='manual', asset_tag=m)`) while taking `board_type`
and `sw_version` from the board's colon-delimited response. -/
theorem c9_manual_board_key (env : ArduinoEnv) (m resp f0 f1 : String) (rest : List String)
    (hq : env.vQuery m = some resp)
    (hsplit : splitColon resp = f0 :: f1 :: rest)
    (hsr : strStartsWith f0 "SR" = true) :
    (getSupportedBoards env [] (some [m]) none).1
      = [(m, ⟨"Student Robotics", f0, m, f1⟩)] := by
  have hinit : arduinoInit env m
      { defaultIdentity with board_type := "manual", asset_tag := m }
      = Except.ok ⟨"Student Robotics", f0, m, f1⟩ := by
    unfold arduinoInit
    rw [hq]
    simp [hsplit, hsr]
  unfold getSupportedBoards
  simp only [List.foldl_cons, List.foldl_nil]
  unfold manualStep
  rw [getValidBoard_ok env m _ _ hinit]
  simp [pyDictInsert]

/-- C9 witness at the manual port `test://port` answering `SRduino:2.0`. -/
theorem c9_manual_board_key_witness :
    (getSupportedBoards envManual [] (some ["test://port"]) none).1
      = [("test://port", (⟨"Student Robotics", "SRduino", "test://port", "2.0"⟩ : BoardIdentity))] :=
  c9_manual_board_key envManual "test://port" "SRduino:2.0" "SRduino" "2.0" []
    rfl rfl rfl

end SRobot
